import Mathlib

/-!
# levin `SharedContainerManager`: registry embedding

A shallow embedding of `src/src/shared_manager.h`: the template members
`Register<T>` (lines 65-140) and `GetContanerPtr<T>` (lines 143-165) of
`SharedContainerManager`, together with the pieces they call.

* The process-wide `_global_container_map` is an association list from
  canonical path to `(handle, status)`.
* A `std::shared_ptr` is an `Option Handle` (`none` is the null pointer);
  a `Handle` is the address of the pointee with its concrete class.
* Calls into code that the header only declares are resolved by an
  `Env` of outcomes (what each opaque call returns or whether it raises)
  or, for the registry helpers, by definitions written from the
  specification text.
* Every effect of a `Register` call on its collaborators is appended to
  a trace of `Event`s, in program order.
* The steps that may raise an exception are the ones inside the `try`
  block: the construction, `AddLoading`, `Init`, `ClearUnregistered`,
  `IsExist`, `VerifyOneFile` and `Load`. The statements outside it and
  the statements of the handlers (`GetAbsolutePath`, `Destroy`,
  `DeleteLoading`, `UpdateSharedStatus`, logging) return normally.
* The macro `CHECK_RET(ret)` (lines 31-34) is the early `return ret` on a
  code other than `SC_RET_OK`.
* The body of `Register` in the header never touches
  `_local_container_map`, so a manager is its group name and its
  application id.
-/

namespace levin

/-! ## Return codes and entry status -/

/-- Modelled from the spec: the return codes `SC_RET_*` live in `shared_utils.h`,
which is not part of the sources; these are the codes of the stable
enumeration in section 6 of the specification. -/
inductive Code
  | OK
  | OOM
  | PATH_INVALID
  | NO_REGISTER
  | ERR_STATUS
  | ERR_TYPE
  | EXCEPTION
  | MISMATCH
  | IO_ERROR
  | ALREADY_EXISTS
  deriving DecidableEq, Repr

/-- The enum `SharedContainerStatus` (lines 48-53), in declaration order. -/
inductive SharedContainerStatus
  | STATUS_LOADING
  | STATUS_READY
  | STATUS_DELETING
  | STATUS_RELEASING
  deriving DecidableEq, Repr

/-! ## Handles -/

/-- Modelled from the spec: the container class templates (`svec.hpp`, `sset.hpp`,
`smap.hpp`, `shashset.hpp`, `shashmap.hpp`, `snested_hashmap.hpp`) are not
part of the sources. A concrete container type is one of the class
templates named by the dump helpers of the header (lines 260-356) at some
instantiation `inst` of its template arguments; the concrete types are
unrelated siblings below `SharedBase`. -/
inductive ContainerClass
  | SharedVector
  | SharedNestedVector
  | SharedSet
  | SharedHashSet
  | SharedMap
  | SharedHashMap
  | SharedNestedHashMap
  deriving DecidableEq, Repr

/-- A concrete container type `T`: a class template and its instantiation. -/
structure ContainerType where
  cls : ContainerClass
  inst : Nat
  deriving DecidableEq, Repr

/-- The pointee of a non-null `std::shared_ptr<SharedBase>`: the address
returned by `get()` and the concrete (dynamic) type of the object. -/
structure Handle where
  addr : Nat
  type : ContainerType
  deriving DecidableEq, Repr

/-- A `std::shared_ptr`: `none` is the null pointer. -/
abbrev SharedPtr := Option Handle

/-- Result of `get()` on a shared pointer: the address, `none` for null. -/
def SharedPtr.get (p : SharedPtr) : Option Nat := p.map Handle.addr

/-- Modelled from the spec: `std::dynamic_pointer_cast<T>` over the absent container
class hierarchy; the cast yields the same pointer when the concrete type
of the pointee is `T` and a null pointer otherwise ("failing with a type
error if the concrete type does not match"). A null pointer casts to a
null pointer. -/
def dynamic_pointer_cast (T : ContainerType) (p : SharedPtr) : SharedPtr :=
  match p with
  | none => none
  | some h => if h.type = T then some h else none

/-! ## The registry table `_global_container_map` -/

/-- The mapped type `ptr_status_pair` (line 56). -/
structure ptr_status_pair where
  first : SharedPtr
  second : SharedContainerStatus
  deriving DecidableEq, Repr

/-- A value-initialised `ptr_status_pair`: null pointer, first enumerator. -/
def ptr_status_pair.init : ptr_status_pair :=
  ⟨none, SharedContainerStatus.STATUS_LOADING⟩

/-- The map `_global_container_map` (line 215). -/
abbrev Registry := List (String × ptr_status_pair)

/-- Lookup `std::map::find`: the mapped value at `key`, `none` for `end()`. -/
def Registry.find : Registry → String → Option ptr_status_pair
  | [], _ => none
  | (k, v) :: rest, key => if k = key then some v else Registry.find rest key

/-- Assignment to the slot of `key`: overwrite in place, or add the key. -/
def Registry.assign : Registry → String → ptr_status_pair → Registry
  | [], key, v => [(key, v)]
  | (k, w) :: rest, key, v =>
    if k = key then (k, v) :: rest else (k, w) :: Registry.assign rest key v

/-- Removal `std::map::erase(key)`. -/
def Registry.erase (reg : Registry) (key : String) : Registry :=
  reg.filter (fun kv => decide (kv.1 ≠ key))

/-- The non-const `std::map::operator[]`: the mapped value at `key`; when
the key is absent a value-initialised entry is inserted first. -/
def Registry.index (reg : Registry) (key : String) : ptr_status_pair × Registry :=
  match reg.find key with
  | some v => (v, reg)
  | none => (ptr_status_pair.init, reg.assign key ptr_status_pair.init)

/-- Modelled from the spec: `AddLoading` is only declared (line 181). Section 4.2,
`insert_loading(key, handle) -> {OK | ALREADY_EXISTS}`: fails if any entry
for the key exists, otherwise inserts `(handle, LOADING)`. -/
def AddLoading (reg : Registry) (key_path : String) (shared_ptr : SharedPtr) :
    Code × Registry :=
  match reg.find key_path with
  | some _ => (Code.ALREADY_EXISTS, reg)
  | none =>
    (Code.OK, reg.assign key_path ⟨shared_ptr, SharedContainerStatus.STATUS_LOADING⟩)

/-- Modelled from the spec: `DeleteLoading` is only declared (line 183). Section 4.2,
`remove(key)`: unconditional erase. -/
def DeleteLoading (reg : Registry) (key_path : String) : Registry :=
  reg.erase key_path

/-- Modelled from the spec: `UpdateSharedStatus` is only declared (line 189).
Section 4.2, `set_status(key, new_status) -> {OK | NOT_FOUND}`; the code
reported for a missing key is the one the enumeration has for an absent
key, `NO_REGISTER`. -/
def UpdateSharedStatus (reg : Registry) (key_path : String)
    (status : SharedContainerStatus) : Code × Registry :=
  match reg.find key_path with
  | some v => (Code.OK, reg.assign key_path ⟨v.first, status⟩)
  | none => (Code.NO_REGISTER, reg)

/-! ## Opaque collaborators -/

/-- What a call into opaque code does: return a value or raise. -/
inductive Outcome (α : Type)
  | ret (a : α)
  | raise
  deriving DecidableEq, Repr

/-- The collaborators of one call, none of which has its body in the header.

* `GetAbsolutePath` (line 179): the returned code and the canonical path.
* `new_T`: the expression `new T(absolute_path, _group_name, _app_id)` of
  line 72: the address of the new object (`none` for a null result, the
  case tested on line 73), or an exception.
* `AddLoading_raises`: whether the insertion of line 77 raises.
* `Init_first`, `Init_retry`: the calls of `Init` on lines 81 and 86.
* `ClearUnregistered`: the call on line 85 (its `int` result is discarded).
* `IsExist`, `VerifyOneFile`, `Load`: lines 97, 98 and 100. -/
structure Env where
  GetAbsolutePath : String → Code × String
  new_T : Outcome (Option Nat)
  AddLoading_raises : Bool
  Init_first : Outcome Code
  Init_retry : Outcome Code
  ClearUnregistered : Outcome Unit
  IsExist : Outcome Bool
  VerifyOneFile : String → Outcome Code
  Load : Outcome Code

/-- The default argument of `ClearUnregistered(const int app_id = 1)`,
line 176. -/
def ClearUnregistered_default_app_id : Int := 1

/-- The default argument of the constructor, `const int app_id = 1`,
line 61. -/
def SharedContainerManager_default_app_id : Int := 1

/-- The members of a manager instance that `Register` reads (lines 213-214). -/
structure SharedContainerManager where
  _group_name : String
  _app_id : Int
  deriving DecidableEq, Repr

/-- Observable effects of a `Register` call, in program order. -/
inductive Event
  | construct (absolute_path group_name : String) (app_id : Int)
      (r : Outcome (Option Nat))
  | addLoading (key_path : String) (r : Outcome Code)
  | lock_container_init
  | unlock_container_init
  | Init (h : Handle) (r : Outcome Code)
  | ClearUnregistered (app_id : Int) (r : Outcome Unit)
  | IsExist (h : Handle) (r : Outcome Bool)
  | VerifyOneFile (file_path : String) (r : Outcome Code)
  | Load (h : Handle) (r : Outcome Code)
  | Destroy (h : Handle)
  | deleteLoading (key_path : String)
  | updateSharedStatus (key_path : String) (status : SharedContainerStatus) (r : Code)
  deriving DecidableEq, Repr

/-- The state a `Register` call works on: the registry table, the
caller's out-parameter `container_ptr`, and the trace so far. -/
structure RegState where
  registry : Registry
  container_ptr : SharedPtr
  trace : List Event
  deriving DecidableEq, Repr

/-- Append an event to the trace. -/
def RegState.emit (s : RegState) (e : Event) : RegState :=
  { s with trace := s.trace ++ [e] }

/-- How control leaves the `try` block of `Register`. -/
inductive Flow
  | done (s : RegState)
  | returned (ret : Code) (s : RegState)
  | raised (s : RegState)
  deriving DecidableEq, Repr

/-! ## `Register` -/

/-- Lines 97-110: `IsExist`, `VerifyOneFile` with `CHECK_RET`, `Load` and
the roll-back of a failed `Load`. -/
def Register_load (env : Env) (absolute_path : String) (h : Handle)
    (s : RegState) : Flow :=
  match env.IsExist with
  | .raise => .raised (s.emit (.IsExist h .raise))
  | .ret true => .done (s.emit (.IsExist h (.ret true)))
  | .ret false =>
    let s := s.emit (.IsExist h (.ret false))
    match env.VerifyOneFile absolute_path with
    | .raise => .raised (s.emit (.VerifyOneFile absolute_path .raise))
    | .ret ret =>
      let s := s.emit (.VerifyOneFile absolute_path (.ret ret))
      -- CHECK_RET(ret), line 99
      if ret ≠ Code.OK then .returned ret s
      else
        match env.Load with
        | .raise => .raised (s.emit (.Load h .raise))
        | .ret ret =>
          let s := s.emit (.Load h (.ret ret))
          if ret ≠ Code.OK then
            -- lines 105-108
            let s := s.emit (.Destroy h)
            let s := { s with container_ptr := none }
            let s := { s with registry := DeleteLoading s.registry absolute_path }
            let s := s.emit (.deleteLoading absolute_path)
            .returned ret s
          else .done s

/-- Lines 88-95, entered with the result `ret` of the last `Init`: the
roll-back of a failed `Init`; otherwise the load phase follows. -/
def Register_initResult (env : Env) (absolute_path : String) (h : Handle)
    (ret : Code) (s : RegState) : Flow :=
  if ret ≠ Code.OK then
    -- lines 89-93
    let s := { s with registry := DeleteLoading s.registry absolute_path }
    let s := s.emit (.deleteLoading absolute_path)
    .returned ret s
  else Register_load env absolute_path h s

/-- Lines 83-95, entered with the result `ret` of the first `Init`: on
`SC_RET_OOM` the call `ClearUnregistered()` (with its default argument)
and the second `Init`. -/
def Register_afterInit (env : Env) (absolute_path : String) (h : Handle)
    (ret : Code) (s : RegState) : Flow :=
  if ret ≠ Code.OK then
    if ret = Code.OOM then
      -- line 85
      match env.ClearUnregistered with
      | .raise =>
        .raised (s.emit (.ClearUnregistered ClearUnregistered_default_app_id .raise))
      | .ret _ =>
        let s := s.emit (.ClearUnregistered ClearUnregistered_default_app_id (.ret ()))
        -- line 86
        match env.Init_retry with
        | .raise => .raised (s.emit (.Init h .raise))
        | .ret ret => Register_initResult env absolute_path h ret (s.emit (.Init h (.ret ret)))
    else Register_initResult env absolute_path h ret s
  else Register_load env absolute_path h s

/-- The `try` block, lines 72-110. -/
def Register_try (m : SharedContainerManager) (env : Env) (T : ContainerType)
    (absolute_path : String) (s : RegState) : Flow :=
  -- line 72
  let s := s.emit (.construct absolute_path m._group_name m._app_id env.new_T)
  match env.new_T with
  | .raise => .raised s
  | .ret none =>
    -- lines 73-76
    .returned Code.OOM { s with container_ptr := none }
  | .ret (some a) =>
    let h : Handle := ⟨a, T⟩
    let s := { s with container_ptr := some h }
    -- line 77
    if env.AddLoading_raises then .raised (s.emit (.addLoading absolute_path .raise))
    else
      let r := AddLoading s.registry absolute_path (some h)
      let s := { s with registry := r.2 }
      let s := s.emit (.addLoading absolute_path (.ret r.1))
      -- CHECK_RET(ret), line 78
      if r.1 ≠ Code.OK then .returned r.1 s
      else
        -- lines 79-82
        let s := s.emit .lock_container_init
        match env.Init_first with
        | .raise =>
          .raised ((s.emit (.Init h .raise)).emit .unlock_container_init)
        | .ret ret =>
          let s := (s.emit (.Init h (.ret ret))).emit .unlock_container_init
          Register_afterInit env absolute_path h ret s

/-- The two `catch` handlers, lines 112-133 (they differ in the log line
only). -/
def Register_catch (absolute_path : String) (s : RegState) : Code × RegState :=
  let s :=
    match s.container_ptr with
    | some h => { s.emit (.Destroy h) with container_ptr := none }
    | none => s
  let s := { s with registry := DeleteLoading s.registry absolute_path }
  (Code.EXCEPTION, s.emit (.deleteLoading absolute_path))

/-- Lines 134-139: the status update that follows the `try` statement. -/
def Register_ready (absolute_path : String) (s : RegState) : Code × RegState :=
  let u := UpdateSharedStatus s.registry absolute_path
    SharedContainerStatus.STATUS_READY
  let s := { s with registry := u.2 }
  let s := s.emit
    (.updateSharedStatus absolute_path SharedContainerStatus.STATUS_READY u.1)
  -- CHECK_RET(ret), line 135
  if u.1 ≠ Code.OK then (u.1, s) else (Code.OK, s)

/-- What follows the `try` block for each way of leaving it: an exception
enters a handler, a `return` leaves the function, and normal completion
continues on line 134. -/
def Register_leave (absolute_path : String) : Flow → Code × RegState
  | .raised s => Register_catch absolute_path s
  | .returned ret s => (ret, s)
  | .done s => Register_ready absolute_path s

/-- The member template `Register<T>` (lines 65-140): the returned code
with the state at return. -/
def Register (m : SharedContainerManager) (env : Env) (T : ContainerType)
    (file_path : String) (s : RegState) : Code × RegState :=
  -- lines 68-69
  let r := env.GetAbsolutePath file_path
  if r.1 ≠ Code.OK then (r.1, s)
  else Register_leave r.2 (Register_try m env T r.2 s)

/-! ## `GetContanerPtr` -/

/-- The result of `GetContanerPtr`: the code, the out-parameter and the
registry table at return. -/
structure GetResult where
  ret : Code
  container_ptr : SharedPtr
  registry : Registry
  deriving DecidableEq, Repr

/-- The static member template `GetContanerPtr<T>` (lines 143-165). The
two subscript expressions of lines 150 and 153 are the non-const
`operator[]`. -/
def GetContanerPtr (env : Env) (T : ContainerType) (file_path : String)
    (reg : Registry) (container_ptr : SharedPtr) : GetResult :=
  let r := env.GetAbsolutePath file_path
  if r.1 ≠ Code.OK then ⟨r.1, container_ptr, reg⟩
  else
    let absolute_path := r.2
    if (reg.find absolute_path).isSome then
      let i := reg.index absolute_path
      if i.1.second ≠ SharedContainerStatus.STATUS_READY then
        ⟨Code.ERR_STATUS, container_ptr, i.2⟩
      else
        let j := i.2.index absolute_path
        let container_ptr := dynamic_pointer_cast T j.1.first
        if container_ptr = none then ⟨Code.ERR_TYPE, container_ptr, j.2⟩
        else ⟨Code.OK, container_ptr, j.2⟩
    else ⟨Code.NO_REGISTER, container_ptr, reg⟩

/-! ## Reading a trace -/

/-- Whether the outcome of a call is an exception. -/
def Outcome.isRaise {α : Type} : Outcome α → Bool
  | .ret _ => false
  | .raise => true

/-- Whether the event is a step that raised an exception. -/
def Event.raises : Event → Bool
  | .construct _ _ _ r => r.isRaise
  | .addLoading _ r => r.isRaise
  | .lock_container_init => false
  | .unlock_container_init => false
  | .Init _ r => r.isRaise
  | .ClearUnregistered _ r => r.isRaise
  | .IsExist _ r => r.isRaise
  | .VerifyOneFile _ r => r.isRaise
  | .Load _ r => r.isRaise
  | .Destroy _ => false
  | .deleteLoading _ => false
  | .updateSharedStatus _ _ _ => false

/-- Whether every `Init` event of the trace lies between an acquisition
and the matching release of `_wr_lock_container_init`; `held` tells
whether the lock is held where the trace starts. -/
def initsUnderLock (held : Bool) : List Event → Bool
  | [] => true
  | e :: rest =>
    match e with
    | .lock_container_init => initsUnderLock true rest
    | .unlock_container_init => initsUnderLock false rest
    | .Init _ _ => held && initsUnderLock held rest
    | _ => initsUnderLock held rest

/-- The events between the acquisition of the init lock and the load
phase when the `Init` phase ends with `SC_RET_OK`: either the first
`Init` returns `OK`, or it returns `OOM`, `ClearUnregistered` returns and
the second `Init` returns `OK`. -/
def InitPhaseOK (env : Env) (h : Handle) (pre : List Event) : Prop :=
  (env.Init_first = .ret Code.OK ∧
    pre = [.Init h (.ret Code.OK), .unlock_container_init]) ∨
  (env.Init_first = .ret Code.OOM ∧ env.ClearUnregistered = .ret () ∧
    env.Init_retry = .ret Code.OK ∧
    pre = [.Init h (.ret Code.OOM), .unlock_container_init,
      .ClearUnregistered ClearUnregistered_default_app_id (.ret ()),
      .Init h (.ret Code.OK)])

/-! ## Sample collaborators -/

/-- A path resolver for paths that are already canonical. -/
def canonical (file_path : String) : Code × String := (Code.OK, file_path)

/-- Collaborators of a first attach in which every step succeeds: the
segment does not exist yet, the file verifies and loads. -/
def env_attach : Env where
  GetAbsolutePath := canonical
  new_T := .ret (some 4096)
  AddLoading_raises := false
  Init_first := .ret Code.OK
  Init_retry := .ret Code.OK
  ClearUnregistered := .ret ()
  IsExist := .ret false
  VerifyOneFile := fun _ => .ret Code.OK
  Load := .ret Code.OK

/-- As `env_attach`, with a first `Init` that reports `SC_RET_OOM`. -/
def env_oom : Env := { env_attach with Init_first := .ret Code.OOM }

/-- As `env_attach`, with a file that fails verification. -/
def env_mismatch : Env := { env_attach with VerifyOneFile := fun _ => .ret Code.MISMATCH }

/-- As `env_attach`, with an `Init` that raises. -/
def env_init_raises : Env := { env_attach with Init_first := .raise }

/-- A manager of group `g` with the default application id. -/
def manager_default : SharedContainerManager := ⟨"g", SharedContainerManager_default_app_id⟩

/-- A manager of group `g` constructed with application id 2. -/
def manager_app2 : SharedContainerManager := ⟨"g", 2⟩

/-- The container type `SharedMap` at its instantiation number 0. -/
def T_map : ContainerType := ⟨ContainerClass.SharedMap, 0⟩

/-- The container type `SharedSet` at its instantiation number 0. -/
def T_set : ContainerType := ⟨ContainerClass.SharedSet, 0⟩

/-! ## Registry lemmas -/

theorem Registry.find_assign_self (reg : Registry) (key : String) (v : ptr_status_pair) :
    (reg.assign key v).find key = some v := by
  induction reg with
  | nil => simp [Registry.assign, Registry.find]
  | cons kv rest ih =>
    obtain ⟨k, w⟩ := kv
    by_cases hk : k = key
    · simp [Registry.assign, Registry.find, hk]
    · simp [Registry.assign, Registry.find, hk, ih]

theorem Registry.find_erase_self (reg : Registry) (key : String) :
    (reg.erase key).find key = none := by
  induction reg with
  | nil => simp [Registry.erase, Registry.find]
  | cons kv rest ih =>
    obtain ⟨k, w⟩ := kv
    by_cases hk : k = key
    · simpa [Registry.erase, hk] using ih
    · simpa [Registry.erase, Registry.find, hk] using ih

theorem Registry.index_of_find (reg : Registry) (key : String) (v : ptr_status_pair)
    (h : reg.find key = some v) : reg.index key = (v, reg) := by
  simp [Registry.index, h]

/-! ## The read path -/

/-- C9: `GetContanerPtr` leaves the registry table as it found it, for
every table, path, requested type and incoming out-handle, whatever code
it returns; the subscript expressions are reached only after `find` has
located the key, so no entry is created. -/
theorem GetContanerPtr_registry_unchanged (env : Env) (T : ContainerType)
    (file_path : String) (reg : Registry) (container_ptr : SharedPtr) :
    (GetContanerPtr env T file_path reg container_ptr).registry = reg := by
  unfold GetContanerPtr
  by_cases hr : (env.GetAbsolutePath file_path).1 = Code.OK
  · cases hf : reg.find (env.GetAbsolutePath file_path).2 with
    | none => simp [hr, hf]
    | some v =>
      have hi := Registry.index_of_find reg _ v hf
      simp only [hr, hf, hi]
      by_cases hs : v.second = SharedContainerStatus.STATUS_READY
      · by_cases hc : dynamic_pointer_cast T v.first = none <;> simp [hs, hc]
      · simp [hs]
  · simp [hr]

/-- C2: for a path that resolves to `key`, the result of `GetContanerPtr<T>`
is a function of the registry entry of `key`: `NO_REGISTER` exactly when
the key is absent; `ERR_STATUS` exactly when it is present with a status
other than `READY`; `ERR_TYPE` exactly when it is present and `READY` with
a stored handle whose concrete type is not `T` (a null stored handle has
no concrete type), and then the out-handle is null; `OK` exactly when it
is present and `READY` with a stored handle of concrete type `T`, and then
the out-handle is the stored handle. A returned `OK` implies a `READY`
entry. -/
theorem GetContanerPtr_by_entry (env : Env) (T : ContainerType)
    (file_path key : String) (reg : Registry) (container_ptr : SharedPtr)
    (hpath : env.GetAbsolutePath file_path = (Code.OK, key)) :
    let q := GetContanerPtr env T file_path reg container_ptr
    (q.ret = Code.NO_REGISTER ↔ reg.find key = none) ∧
    (q.ret = Code.ERR_STATUS ↔
      ∃ v, reg.find key = some v ∧ v.second ≠ SharedContainerStatus.STATUS_READY) ∧
    (q.ret = Code.ERR_TYPE ↔
      ∃ v, reg.find key = some v ∧ v.second = SharedContainerStatus.STATUS_READY ∧
        v.first.map Handle.type ≠ some T) ∧
    (q.ret = Code.ERR_TYPE → q.container_ptr = none) ∧
    (q.ret = Code.OK ↔
      ∃ v, reg.find key = some v ∧ v.second = SharedContainerStatus.STATUS_READY ∧
        v.first.map Handle.type = some T) ∧
    (q.ret = Code.OK →
      ∃ v, reg.find key = some v ∧ v.second = SharedContainerStatus.STATUS_READY ∧
        q.container_ptr = v.first ∧ q.container_ptr ≠ none) := by
  unfold GetContanerPtr
  cases hf : reg.find key with
  | none => simp [hpath, hf]
  | some v =>
    have hi := Registry.index_of_find reg _ v hf
    simp only [hpath, hf, hi]
    by_cases hs : v.second = SharedContainerStatus.STATUS_READY
    · obtain ⟨p, st⟩ := v
      cases p with
      | none => simp_all [dynamic_pointer_cast]
      | some h =>
        by_cases ht : h.type = T <;> simp_all [dynamic_pointer_cast]
    · simp [hs]

/-! ## Shape of a completed `try` block -/

theorem Register_load_done (env : Env) (key : String) (h : Handle) (s s1 : RegState)
    (hd : Register_load env key h s = .done s1) :
    s1.registry = s.registry ∧ s1.container_ptr = s.container_ptr := by
  unfold Register_load at hd
  split at hd
  · simp at hd
  · simp only [Flow.done.injEq] at hd
    subst hd
    simp [RegState.emit]
  · split at hd
    · simp at hd
    · split at hd
      · simp at hd
      · split at hd
        · simp at hd
        · split at hd
          · simp at hd
          · simp only [Flow.done.injEq] at hd
            subst hd
            simp [RegState.emit]

theorem Register_initResult_done (env : Env) (key : String) (h : Handle) (ret : Code)
    (s s1 : RegState) (hd : Register_initResult env key h ret s = .done s1) :
    s1.registry = s.registry ∧ s1.container_ptr = s.container_ptr := by
  unfold Register_initResult at hd
  split at hd
  · simp at hd
  · exact Register_load_done env key h s s1 hd

theorem Register_afterInit_done (env : Env) (key : String) (h : Handle) (ret : Code)
    (s s1 : RegState) (hd : Register_afterInit env key h ret s = .done s1) :
    s1.registry = s.registry ∧ s1.container_ptr = s.container_ptr := by
  unfold Register_afterInit at hd
  split at hd
  · split at hd
    · split at hd
      · simp at hd
      · split at hd
        · simp at hd
        · have := Register_initResult_done env key h _ _ s1 hd
          simpa [RegState.emit] using this
    · exact Register_initResult_done env key h ret s s1 hd
  · exact Register_load_done env key h s s1 hd

theorem Register_try_done (m : SharedContainerManager) (env : Env) (T : ContainerType)
    (key : String) (s s1 : RegState) (hd : Register_try m env T key s = .done s1) :
    ∃ a, env.new_T = .ret (some a) ∧ s.registry.find key = none ∧
      s1.container_ptr = some ⟨a, T⟩ ∧
      s1.registry = s.registry.assign key
        ⟨some ⟨a, T⟩, SharedContainerStatus.STATUS_LOADING⟩ := by
  unfold Register_try at hd
  cases hn : env.new_T with
  | raise => simp [hn] at hd
  | ret o =>
    cases o with
    | none => simp [hn] at hd
    | some a =>
      refine ⟨a, rfl, ?_⟩
      simp only [hn] at hd
      cases hr : env.AddLoading_raises with
      | true => simp [hr] at hd
      | false =>
        simp only [hr] at hd
        cases hf : s.registry.find key with
        | some v => simp [AddLoading, RegState.emit, hf] at hd
        | none =>
          simp only [AddLoading, RegState.emit, hf] at hd
          cases hi : env.Init_first with
          | raise => simp [hi] at hd
          | ret c =>
            simp only [hi] at hd
            have := Register_afterInit_done env key ⟨a, T⟩ c _ s1 (by simpa using hd)
            simp only [RegState.emit] at this
            exact ⟨rfl, this.2, this.1⟩

theorem Register_load_returned (env : Env) (key : String) (h : Handle) (c : Code)
    (s s1 : RegState) (hd : Register_load env key h s = .returned c s1) : c ≠ Code.OK := by
  unfold Register_load at hd
  split at hd
  · simp at hd
  · simp at hd
  · split at hd
    · simp at hd
    · split at hd
      · simp only [Flow.returned.injEq] at hd
        obtain ⟨rfl, -⟩ := hd
        assumption
      · split at hd
        · simp at hd
        · split at hd
          · simp only [Flow.returned.injEq] at hd
            obtain ⟨rfl, -⟩ := hd
            assumption
          · simp at hd

theorem Register_initResult_returned (env : Env) (key : String) (h : Handle) (ret c : Code)
    (s s1 : RegState) (hd : Register_initResult env key h ret s = .returned c s1) :
    c ≠ Code.OK := by
  unfold Register_initResult at hd
  split at hd
  · simp only [Flow.returned.injEq] at hd
    obtain ⟨rfl, -⟩ := hd
    assumption
  · exact Register_load_returned env key h c s s1 hd

theorem Register_afterInit_returned (env : Env) (key : String) (h : Handle) (ret c : Code)
    (s s1 : RegState) (hd : Register_afterInit env key h ret s = .returned c s1) :
    c ≠ Code.OK := by
  unfold Register_afterInit at hd
  split at hd
  · split at hd
    · split at hd
      · simp at hd
      · split at hd
        · simp at hd
        · exact Register_initResult_returned env key h _ c _ s1 hd
    · exact Register_initResult_returned env key h ret c s s1 hd
  · exact Register_load_returned env key h c s s1 hd

theorem Register_try_returned (m : SharedContainerManager) (env : Env) (T : ContainerType)
    (key : String) (c : Code) (s s1 : RegState)
    (hd : Register_try m env T key s = .returned c s1) : c ≠ Code.OK := by
  unfold Register_try at hd
  cases hn : env.new_T with
  | raise => simp [hn] at hd
  | ret o =>
    cases o with
    | none =>
      simp only [hn, Flow.returned.injEq] at hd
      obtain ⟨rfl, -⟩ := hd
      decide
    | some a =>
      simp only [hn] at hd
      cases hr : env.AddLoading_raises with
      | true => simp [hr] at hd
      | false =>
        simp only [hr] at hd
        cases hf : s.registry.find key with
        | some v =>
          simp only [AddLoading, RegState.emit, hf] at hd
          simp at hd
          obtain ⟨rfl, -⟩ := hd
          decide
        | none =>
          simp only [AddLoading, RegState.emit, hf] at hd
          cases hi : env.Init_first with
          | raise => simp [hi] at hd
          | ret c1 =>
            simp only [hi] at hd
            exact Register_afterInit_returned env key ⟨a, T⟩ c1 c _ s1 (by simpa using hd)

/-! ## Registration -/

/-- C1: when `Register<T>(path, h)` returns `OK`, a `GetContanerPtr<T>` on
the same path against the registry it left behind returns `OK` and hands
out the very handle `Register` gave to its caller (same pointer, not
null); the registry entry of the canonical key holds that handle with
status `READY`. -/
theorem Register_then_GetContanerPtr (m : SharedContainerManager) (env : Env)
    (T : ContainerType) (file_path : String) (s : RegState) (g : SharedPtr)
    (hok : (Register m env T file_path s).1 = Code.OK) :
    let r := Register m env T file_path s
    let q := GetContanerPtr env T file_path r.2.registry g
    q.ret = Code.OK ∧ q.container_ptr = r.2.container_ptr ∧
    r.2.container_ptr ≠ none ∧
    q.container_ptr.get = r.2.container_ptr.get ∧
    r.2.registry.find (env.GetAbsolutePath file_path).2
      = some ⟨r.2.container_ptr, SharedContainerStatus.STATUS_READY⟩ := by
  intro r q
  have hr : r = Register m env T file_path s := rfl
  have hq : q = GetContanerPtr env T file_path r.2.registry g := rfl
  unfold Register at hr hok
  by_cases hp : (env.GetAbsolutePath file_path).1 = Code.OK
  · simp only [hp, ne_eq, not_true_eq_false, if_false] at hr hok
    cases ht : Register_try m env T (env.GetAbsolutePath file_path).2 s with
    | raised s1 => simp [ht, Register_leave, Register_catch] at hok
    | returned c s1 =>
      simp only [ht, Register_leave] at hok
      exact absurd hok (Register_try_returned m env T _ c s s1 ht)
    | done s1 =>
      obtain ⟨a, -, hnone, hptr, hreg⟩ := Register_try_done m env T _ s s1 ht
      have hfind : s1.registry.find (env.GetAbsolutePath file_path).2
          = some ⟨some ⟨a, T⟩, SharedContainerStatus.STATUS_LOADING⟩ := by
        rw [hreg]; exact Registry.find_assign_self _ _ _
      simp only [ht, Register_leave, Register_ready, UpdateSharedStatus, hfind,
        RegState.emit, ne_eq, not_true_eq_false, if_false] at hr
      have hrf : r.2.registry.find (env.GetAbsolutePath file_path).2
          = some ⟨some ⟨a, T⟩, SharedContainerStatus.STATUS_READY⟩ := by
        rw [hr]; exact Registry.find_assign_self _ _ _
      have hrp : r.2.container_ptr = some ⟨a, T⟩ := by rw [hr]; exact hptr
      have hi := Registry.index_of_find _ _ _ hrf
      have hqv : q = ⟨Code.OK, some ⟨a, T⟩, r.2.registry⟩ := by
        rw [hq]
        unfold GetContanerPtr
        simp [hp, hrf, hi, dynamic_pointer_cast]
      rw [hqv, hrp]
      simp [hrf, hrp]
  · simp [hp] at hok

set_option maxHeartbeats 1000000

/-! ## Symbolic execution of the `try` block -/

theorem Register_load_elim {Q : Flow → Prop} (env : Env) (key : String) (h : Handle)
    (s : RegState) (f : Flow) (hf : Register_load env key h s = f)
    (h1 : env.IsExist = .raise →
      Q (.raised ⟨s.registry, s.container_ptr, s.trace ++ [.IsExist h .raise]⟩))
    (h2 : env.IsExist = .ret true →
      Q (.done ⟨s.registry, s.container_ptr, s.trace ++ [.IsExist h (.ret true)]⟩))
    (h3 : env.IsExist = .ret false → env.VerifyOneFile key = .raise →
      Q (.raised ⟨s.registry, s.container_ptr,
        s.trace ++ [.IsExist h (.ret false), .VerifyOneFile key .raise]⟩))
    (h4 : ∀ c, env.IsExist = .ret false → env.VerifyOneFile key = .ret c → c ≠ Code.OK →
      Q (.returned c ⟨s.registry, s.container_ptr,
        s.trace ++ [.IsExist h (.ret false), .VerifyOneFile key (.ret c)]⟩))
    (h5 : env.IsExist = .ret false → env.VerifyOneFile key = .ret Code.OK →
      env.Load = .raise →
      Q (.raised ⟨s.registry, s.container_ptr,
        s.trace ++ [.IsExist h (.ret false), .VerifyOneFile key (.ret Code.OK),
          .Load h .raise]⟩))
    (h6 : ∀ c, env.IsExist = .ret false → env.VerifyOneFile key = .ret Code.OK →
      env.Load = .ret c → c ≠ Code.OK →
      Q (.returned c ⟨DeleteLoading s.registry key, none,
        s.trace ++ [.IsExist h (.ret false), .VerifyOneFile key (.ret Code.OK),
          .Load h (.ret c), .Destroy h, .deleteLoading key]⟩))
    (h7 : env.IsExist = .ret false → env.VerifyOneFile key = .ret Code.OK →
      env.Load = .ret Code.OK →
      Q (.done ⟨s.registry, s.container_ptr,
        s.trace ++ [.IsExist h (.ret false), .VerifyOneFile key (.ret Code.OK),
          .Load h (.ret Code.OK)]⟩)) :
    Q f := by
  subst hf
  unfold Register_load
  cases hie : env.IsExist with
  | raise => simpa [RegState.emit] using h1 hie
  | ret b =>
    cases b with
    | true => simpa [RegState.emit] using h2 hie
    | false =>
      cases hv : env.VerifyOneFile key with
      | raise => simpa [RegState.emit] using h3 hie hv
      | ret c =>
        by_cases hc : c = Code.OK
        · subst hc
          cases hl : env.Load with
          | raise => simpa [RegState.emit] using h5 hie hv hl
          | ret d =>
            by_cases hd : d = Code.OK
            · subst hd
              simpa [RegState.emit] using h7 hie hv hl
            · simpa [RegState.emit, hd] using h6 d hie hv hl hd
        · simpa [RegState.emit, hc] using h4 c hie hv hc

/-- Every way through the `try` block of `Register`, as the outcomes of
the collaborators select it, with the state in which the block is left. -/
theorem Register_try_elim {Q : Flow → Prop} (m : SharedContainerManager) (env : Env)
    (T : ContainerType) (key : String) (s : RegState) (f : Flow)
    (hf : Register_try m env T key s = f)
    (ctor_raise : env.new_T = Outcome.raise →
      Q (Flow.raised ⟨s.registry, s.container_ptr,
        s.trace ++ [Event.construct key m._group_name m._app_id Outcome.raise]⟩))
    (ctor_null : env.new_T = Outcome.ret none →
      Q (Flow.returned Code.OOM ⟨s.registry, none,
        s.trace ++ [Event.construct key m._group_name m._app_id (Outcome.ret none)]⟩))
    (add_raise : ∀ a, env.new_T = Outcome.ret (some a) → env.AddLoading_raises = true →
      Q (Flow.raised ⟨s.registry, some ⟨a, T⟩,
        s.trace ++ [Event.construct key m._group_name m._app_id (Outcome.ret (some a)),
          Event.addLoading key Outcome.raise]⟩))
    (add_exists : ∀ a v, env.new_T = Outcome.ret (some a) → env.AddLoading_raises = false →
      s.registry.find key = some v →
      Q (Flow.returned Code.ALREADY_EXISTS ⟨s.registry, some ⟨a, T⟩,
        s.trace ++ [Event.construct key m._group_name m._app_id (Outcome.ret (some a)),
          Event.addLoading key (Outcome.ret Code.ALREADY_EXISTS)]⟩))
    (init_raise : ∀ a, env.new_T = Outcome.ret (some a) → env.AddLoading_raises = false →
      s.registry.find key = none → env.Init_first = Outcome.raise →
      Q (Flow.raised ⟨s.registry.assign key ⟨some ⟨a, T⟩, SharedContainerStatus.STATUS_LOADING⟩, some ⟨a, T⟩,
        s.trace ++ [Event.construct key m._group_name m._app_id (Outcome.ret (some a)),
          Event.addLoading key (Outcome.ret Code.OK), Event.lock_container_init,
          Event.Init ⟨a, T⟩ Outcome.raise, Event.unlock_container_init]⟩))
    (init_fail : ∀ a c, env.new_T = Outcome.ret (some a) → env.AddLoading_raises = false →
      s.registry.find key = none → env.Init_first = Outcome.ret c → c ≠ Code.OK →
      c ≠ Code.OOM →
      Q (Flow.returned c
        ⟨DeleteLoading (s.registry.assign key ⟨some ⟨a, T⟩, SharedContainerStatus.STATUS_LOADING⟩) key,
        some ⟨a, T⟩,
        s.trace ++ [Event.construct key m._group_name m._app_id (Outcome.ret (some a)),
          Event.addLoading key (Outcome.ret Code.OK), Event.lock_container_init,
          Event.Init ⟨a, T⟩ (Outcome.ret c), Event.unlock_container_init, Event.deleteLoading key]⟩))
    (clear_raise : ∀ a, env.new_T = Outcome.ret (some a) → env.AddLoading_raises = false →
      s.registry.find key = none → env.Init_first = Outcome.ret Code.OOM →
      env.ClearUnregistered = Outcome.raise →
      Q (Flow.raised ⟨s.registry.assign key ⟨some ⟨a, T⟩, SharedContainerStatus.STATUS_LOADING⟩, some ⟨a, T⟩,
        s.trace ++ [Event.construct key m._group_name m._app_id (Outcome.ret (some a)),
          Event.addLoading key (Outcome.ret Code.OK), Event.lock_container_init,
          Event.Init ⟨a, T⟩ (Outcome.ret Code.OOM), Event.unlock_container_init,
          Event.ClearUnregistered ClearUnregistered_default_app_id Outcome.raise]⟩))
    (retry_raise : ∀ a, env.new_T = Outcome.ret (some a) → env.AddLoading_raises = false →
      s.registry.find key = none → env.Init_first = Outcome.ret Code.OOM →
      env.ClearUnregistered = Outcome.ret () → env.Init_retry = Outcome.raise →
      Q (Flow.raised ⟨s.registry.assign key ⟨some ⟨a, T⟩, SharedContainerStatus.STATUS_LOADING⟩, some ⟨a, T⟩,
        s.trace ++ [Event.construct key m._group_name m._app_id (Outcome.ret (some a)),
          Event.addLoading key (Outcome.ret Code.OK), Event.lock_container_init,
          Event.Init ⟨a, T⟩ (Outcome.ret Code.OOM), Event.unlock_container_init,
          Event.ClearUnregistered ClearUnregistered_default_app_id (Outcome.ret ()),
          Event.Init ⟨a, T⟩ Outcome.raise]⟩))
    (retry_fail : ∀ a c, env.new_T = Outcome.ret (some a) → env.AddLoading_raises = false →
      s.registry.find key = none → env.Init_first = Outcome.ret Code.OOM →
      env.ClearUnregistered = Outcome.ret () → env.Init_retry = Outcome.ret c → c ≠ Code.OK →
      Q (Flow.returned c
        ⟨DeleteLoading (s.registry.assign key ⟨some ⟨a, T⟩, SharedContainerStatus.STATUS_LOADING⟩) key,
        some ⟨a, T⟩,
        s.trace ++ [Event.construct key m._group_name m._app_id (Outcome.ret (some a)),
          Event.addLoading key (Outcome.ret Code.OK), Event.lock_container_init,
          Event.Init ⟨a, T⟩ (Outcome.ret Code.OOM), Event.unlock_container_init,
          Event.ClearUnregistered ClearUnregistered_default_app_id (Outcome.ret ()),
          Event.Init ⟨a, T⟩ (Outcome.ret c), Event.deleteLoading key]⟩))
    (load : ∀ a pre g, env.new_T = Outcome.ret (some a) → env.AddLoading_raises = false →
      s.registry.find key = none → InitPhaseOK env ⟨a, T⟩ pre →
      Register_load env key ⟨a, T⟩
        ⟨s.registry.assign key ⟨some ⟨a, T⟩, SharedContainerStatus.STATUS_LOADING⟩, some ⟨a, T⟩,
        s.trace ++ ([Event.construct key m._group_name m._app_id (Outcome.ret (some a)),
          Event.addLoading key (Outcome.ret Code.OK), Event.lock_container_init] ++ pre)⟩ = g →
      Q g) :
    Q f := by
  subst hf
  unfold Register_try
  cases hn : env.new_T with
  | raise => simpa [RegState.emit] using ctor_raise hn
  | ret o =>
    cases o with
    | none => simpa [RegState.emit] using ctor_null hn
    | some a =>
      cases hr : env.AddLoading_raises with
      | true => simpa [RegState.emit] using add_raise a hn hr
      | false =>
        cases hfd : s.registry.find key with
        | some v =>
          simpa [RegState.emit, AddLoading, hfd] using add_exists a v hn hr hfd
        | none =>
          cases hi : env.Init_first with
          | raise =>
            simpa [RegState.emit, AddLoading, hfd] using init_raise a hn hr hfd hi
          | ret c =>
            simp only [RegState.emit, AddLoading, hfd, ne_eq, not_true_eq_false, if_false,
              Bool.false_eq_true]
            unfold Register_afterInit Register_initResult
            by_cases hc : c = Code.OK
            · subst hc
              simp only [ne_eq, not_true_eq_false, if_false]
              refine load a _ _ hn hr hfd (Or.inl ⟨hi, rfl⟩) ?_
              simp
            · by_cases ho : c = Code.OOM
              · subst ho
                cases hcu : env.ClearUnregistered with
                | raise =>
                  simpa [RegState.emit] using clear_raise a hn hr hfd hi hcu
                | ret u =>
                  cases hi2 : env.Init_retry with
                  | raise =>
                    simpa [RegState.emit] using retry_raise a hn hr hfd hi hcu hi2
                  | ret d =>
                    by_cases hd : d = Code.OK
                    · subst hd
                      simp only [ne_eq, not_true_eq_false, if_false, RegState.emit]
                      refine load a _ _ hn hr hfd (Or.inr ⟨hi, hcu, hi2, rfl⟩) ?_
                      simp
                    · simpa [RegState.emit, hd] using retry_fail a d hn hr hfd hi hcu hi2 hd
              · simpa [RegState.emit, hc, ho] using init_fail a c hn hr hfd hi hc ho

/-! ## Exceptions -/

/-- C7: in every `Register` call in which one of the steps inside the
`try` block raises (constructing the container, inserting the `LOADING`
entry, `Init`, `ClearUnregistered`, `IsExist`, `VerifyOneFile`, `Load`),
the call returns the code `EXCEPTION`, the out-handle is null, the
container constructed by the call (when the construction itself did not
raise) has had `Destroy` called, and the registry holds no entry for the
key, hence no `LOADING` one. -/
theorem Register_exception_safety (m : SharedContainerManager) (env : Env)
    (T : ContainerType) (file_path : String) (reg : Registry) (p : SharedPtr) :
    let r := Register m env T file_path ⟨reg, p, []⟩
    (∃ e ∈ r.2.trace, e.raises = true) →
    r.1 = Code.EXCEPTION ∧ r.2.container_ptr = none ∧
    (∀ a, env.new_T = Outcome.ret (some a) → Event.Destroy ⟨a, T⟩ ∈ r.2.trace) ∧
    r.2.registry.find (env.GetAbsolutePath file_path).2 = none := by
  dsimp only
  unfold Register
  by_cases hp : (env.GetAbsolutePath file_path).1 = Code.OK
  swap
  · simp [hp]
  simp only [hp, ne_eq, not_true_eq_false, if_false]
  generalize (env.GetAbsolutePath file_path).2 = key
  generalize hf : Register_try m env T key ⟨reg, p, []⟩ = f
  apply Register_try_elim m env T key _ f hf
  pick_goal 10
  · intro a pre g hn hr hfd hpre hg
    clear hf
    apply Register_load_elim env key _ _ g hg <;> clear hg <;> intros <;>
      rcases hpre with ⟨-, rfl⟩ | ⟨-, -, -, rfl⟩ <;>
      simp_all [Register_leave, Register_catch, Register_ready, RegState.emit, DeleteLoading,
        UpdateSharedStatus, Registry.find_erase_self, Registry.find_assign_self,
        Event.raises, Outcome.isRaise]
  · intro hn
    cases p <;>
    simp [Register_leave, Register_catch, RegState.emit, DeleteLoading,
      Registry.find_erase_self, Event.raises, Outcome.isRaise, hn]
  all_goals
    clear hf
    intros
    simp_all [Register_leave, Register_catch, Register_ready, RegState.emit, DeleteLoading,
      UpdateSharedStatus, Registry.find_erase_self, Registry.find_assign_self,
      Event.raises, Outcome.isRaise]

theorem Register_exception_safety_witness :
    (∃ e ∈ (Register manager_default env_init_raises T_map "/a/b.snap"
        ⟨[], none, []⟩).2.trace, e.raises = true) ∧
    (Register manager_default env_init_raises T_map "/a/b.snap" ⟨[], none, []⟩).1
      = Code.EXCEPTION ∧
    (Register manager_default env_init_raises T_map "/a/b.snap"
      ⟨[], none, []⟩).2.container_ptr = none :=
  have h : ∃ e ∈ (Register manager_default env_init_raises T_map "/a/b.snap"
      ⟨[], none, []⟩).2.trace, e.raises = true := by decide
  have t := Register_exception_safety manager_default env_init_raises T_map
    "/a/b.snap" [] none h
  ⟨h, t.1, t.2.1⟩

/-- C4: at a first attach whose `Init` succeeds, whose segment does not
exist yet and whose file fails verification with `MISMATCH`, `Register`
returns `MISMATCH` through the `CHECK_RET` of line 99 and the registry
still holds the entry inserted by the call, in status `LOADING`: no
`DeleteLoading` is performed on this path. -/
theorem Register_verify_failure_keeps_loading :
    Register manager_default env_mismatch T_map "/x" ⟨[], none, []⟩ =
      (Code.MISMATCH,
        ⟨[("/x", ⟨some ⟨4096, T_map⟩, SharedContainerStatus.STATUS_LOADING⟩)],
          some ⟨4096, T_map⟩,
          [Event.construct "/x" "g" 1 (Outcome.ret (some 4096)),
           Event.addLoading "/x" (Outcome.ret Code.OK),
           Event.lock_container_init,
           Event.Init ⟨4096, T_map⟩ (Outcome.ret Code.OK),
           Event.unlock_container_init,
           Event.IsExist ⟨4096, T_map⟩ (Outcome.ret false),
           Event.VerifyOneFile "/x" (Outcome.ret Code.MISMATCH)]⟩) := by
  decide

/-! ## Failure of a container operation -/

theorem Register_then_GetContanerPtr_witness :
    (Register manager_default env_attach T_map "/a/b.snap" ⟨[], none, []⟩).1 = Code.OK ∧
    (GetContanerPtr env_attach T_map "/a/b.snap"
      (Register manager_default env_attach T_map "/a/b.snap" ⟨[], none, []⟩).2.registry
      none).ret = Code.OK ∧
    (GetContanerPtr env_attach T_map "/a/b.snap"
      (Register manager_default env_attach T_map "/a/b.snap" ⟨[], none, []⟩).2.registry
      none).container_ptr =
      (Register manager_default env_attach T_map "/a/b.snap" ⟨[], none, []⟩).2.container_ptr :=
  have h : (Register manager_default env_attach T_map "/a/b.snap" ⟨[], none, []⟩).1
      = Code.OK := by decide
  have t := Register_then_GetContanerPtr manager_default env_attach T_map "/a/b.snap"
    ⟨[], none, []⟩ none h
  ⟨h, t.1, t.2.1⟩

theorem GetContanerPtr_by_entry_witness :
    env_attach.GetAbsolutePath "/m" = (Code.OK, "/m") ∧
    (GetContanerPtr env_attach T_set "/m"
      [("/m", ⟨some ⟨1, T_map⟩, SharedContainerStatus.STATUS_READY⟩)] (some ⟨7, T_set⟩)).ret
      = Code.ERR_TYPE ∧
    (GetContanerPtr env_attach T_set "/m"
      [("/m", ⟨some ⟨1, T_map⟩, SharedContainerStatus.STATUS_READY⟩)]
      (some ⟨7, T_set⟩)).container_ptr = none :=
  have t := GetContanerPtr_by_entry env_attach T_set "/m" "/m"
    [("/m", ⟨some ⟨1, T_map⟩, SharedContainerStatus.STATUS_READY⟩)] (some ⟨7, T_set⟩) rfl
  have e : (GetContanerPtr env_attach T_set "/m"
      [("/m", ⟨some ⟨1, T_map⟩, SharedContainerStatus.STATUS_READY⟩)] (some ⟨7, T_set⟩)).ret
      = Code.ERR_TYPE :=
    t.2.2.1.2 ⟨⟨some ⟨1, T_map⟩, SharedContainerStatus.STATUS_READY⟩,
      by decide, rfl, by decide⟩
  ⟨rfl, e, t.2.2.2.1 e⟩

/-! ## The init lock and the application id on the recovery path -/

/-- C8: at a first attach whose first `Init` returns `OOM` and whose second
`Init` succeeds, the first `Init` runs between the acquisition and the
release of `_wr_lock_container_init`, and the second `Init` (line 86) runs
after the release of line 82 with no new acquisition: not every `Init`
event of the trace is under the init lock. -/
theorem Register_retry_Init_outside_lock :
    (Register manager_default env_oom T_map "/a/b.snap" ⟨[], none, []⟩).2.trace =
      [Event.construct "/a/b.snap" "g" 1 (Outcome.ret (some 4096)),
       Event.addLoading "/a/b.snap" (Outcome.ret Code.OK),
       Event.lock_container_init,
       Event.Init ⟨4096, T_map⟩ (Outcome.ret Code.OOM),
       Event.unlock_container_init,
       Event.ClearUnregistered 1 (Outcome.ret ()),
       Event.Init ⟨4096, T_map⟩ (Outcome.ret Code.OK),
       Event.IsExist ⟨4096, T_map⟩ (Outcome.ret false),
       Event.VerifyOneFile "/a/b.snap" (Outcome.ret Code.OK),
       Event.Load ⟨4096, T_map⟩ (Outcome.ret Code.OK),
       Event.updateSharedStatus "/a/b.snap" SharedContainerStatus.STATUS_READY Code.OK] ∧
    initsUnderLock false
      (Register manager_default env_oom T_map "/a/b.snap" ⟨[], none, []⟩).2.trace = false := by
  decide

/-- C10: for a manager constructed with application id 2, at a first
attach whose first `Init` returns `OOM`, the container is constructed
with application id 2 while the recovery call is `ClearUnregistered(1)`,
the default argument of line 176, and no `ClearUnregistered(2)` occurs. -/
theorem Register_ClearUnregistered_ignores_app_id :
    Event.construct "/a/b.snap" "g" 2 (Outcome.ret (some 4096)) ∈
      (Register manager_app2 env_oom T_map "/a/b.snap" ⟨[], none, []⟩).2.trace ∧
    Event.ClearUnregistered 1 (Outcome.ret ()) ∈
      (Register manager_app2 env_oom T_map "/a/b.snap" ⟨[], none, []⟩).2.trace ∧
    (∀ o, Event.ClearUnregistered manager_app2._app_id o ∉
      (Register manager_app2 env_oom T_map "/a/b.snap" ⟨[], none, []⟩).2.trace) := by
  refine ⟨by decide, by decide, ?_⟩
  intro o
  cases o with
  | raise => decide
  | ret u => cases u; decide

end levin
